import Mathlib

/-!
Verification of the Complete-Transfers artwork uploader against its
natural-language specification.

The development shallowly embeds the relevant parts of the Python sources:

* src/odoo_artwork_uploader/lib/color_workflow.py   -> namespace ColorWorkflow
* src/odoo_artwork_uploader/lib/garment_colors.py   -> namespace GarmentColors
* src/odoo_artwork_uploader/lib/pdf_generator.py    -> namespace PdfGen
* src/odoo_artwork_uploader/models/artwork_canvas_element.py -> namespace CanvasElementModel
* src/odoo_artwork_uploader/models/artwork_logo.py  -> namespace LogoModel

Python numbers are modelled by Int / Rat (the arithmetic appearing here has
small, exactly representable values so rational arithmetic agrees with the
source's float arithmetic), Python strings by String, dictionaries by
structures whose optional keys become Option fields.
-/

/- Batteries marks the Rat arithmetic operations irreducible, which blocks
the evaluation of closed rational computations by decide; restore the
default reducibility for this file so concrete instances evaluate. -/
attribute [local semireducible] Rat.mul Rat.add Rat.sub Rat.inv Rat.ofScientific

namespace ColorWorkflow

/-- FileType enum of color_workflow.py. -/
inductive FileType where
  | vectorSvg
  | vectorPdf
  | vectorAi
  | vectorEps
  | rasterPng
  | rasterJpeg
  | mixedContent
  | unknown
deriving DecidableEq, Repr

/-- ColorWorkflowManager.is_vector_file: membership in the four vector variants. -/
def is_vector_file (file_type : FileType) : Bool :=
  file_type = FileType.vectorSvg ∨ file_type = FileType.vectorPdf ∨
    file_type = FileType.vectorAi ∨ file_type = FileType.vectorEps

/-- ColorWorkflowManager.is_raster_file: membership in the two raster variants. -/
def is_raster_file (file_type : FileType) : Bool :=
  file_type = FileType.rasterPng ∨ file_type = FileType.rasterJpeg

/-- ColorWorkflowManager.should_preserve_cmyk: non-vector files return False,
vector files return has_cmyk_colors. -/
def should_preserve_cmyk (file_type : FileType) (has_cmyk_colors : Bool) : Bool :=
  if ¬ is_vector_file file_type then false
  else has_cmyk_colors

/-- The dict returned by ColorWorkflowManager.get_workflow_options. -/
structure WorkflowOptions where
  preserve_cmyk : Bool
  convert_to_cmyk : Bool
  allow_raster_conversion : Bool
deriving DecidableEq, Repr

/-- ColorWorkflowManager.get_workflow_options. -/
def get_workflow_options (file_type : FileType) (has_cmyk_colors : Bool) : WorkflowOptions :=
  if is_vector_file file_type then
    { preserve_cmyk := should_preserve_cmyk file_type has_cmyk_colors
      convert_to_cmyk := !has_cmyk_colors
      allow_raster_conversion := false }
  else
    { preserve_cmyk := false
      convert_to_cmyk := true
      allow_raster_conversion := true }

/-- Floor of a rational number (the denominator of a Rat is positive). -/
def ratFloor (q : ℚ) : ℤ := Int.fdiv q.num (q.den : ℤ)

/-- Python's builtin round: round half to even.  The source rounds values of
the form 100*a/b with b ≤ 255*255; such values are never exactly halfway
between integers in a way that float error could flip, so the exact rational
model agrees with Python's float round on every input used here. -/
def pyRound (x : ℚ) : ℤ :=
  let f := ratFloor x
  let frac := x - (f : ℚ)
  if frac < 1 / 2 then f
  else if frac = 1 / 2 then (if f % 2 = 0 then f else f + 1)
  else f + 1

/-- Python's two-argument min, as used in rgb_to_cmyk. -/
def pymin (a b : ℚ) : ℚ := if a ≤ b then a else b

/-- ColorWorkflowManager.rgb_to_cmyk.  Mirrors the source: the all-zero input
short-circuits to (0, 0, 0, 100); otherwise channels are normalised to [0,1],
k is the minimum of c, m, y, and when k = 1 the source zeroes c, m, y before
the common rounding return (so the result is (0, 0, 0, 100) there as well). -/
def rgb_to_cmyk (r g b : ℤ) : ℤ × ℤ × ℤ × ℤ :=
  if r = 0 ∧ g = 0 ∧ b = 0 then (0, 0, 0, 100)
  else
    let rq : ℚ := (r : ℚ) / 255
    let gq : ℚ := (g : ℚ) / 255
    let bq : ℚ := (b : ℚ) / 255
    let c := 1 - rq
    let m := 1 - gq
    let y := 1 - bq
    let k := pymin c (pymin m y)
    if k = 1 then
      (0, 0, 0, pyRound (k * 100))
    else
      let cx := (c - k) / (1 - k)
      let mx := (m - k) / (1 - k)
      let yx := (y - k) / (1 - k)
      (pyRound (cx * 100), pyRound (mx * 100), pyRound (yx * 100), pyRound (k * 100))

/-- Value of a hexadecimal digit character, none for non-hex characters
(stated on the code point so the ranges 0-9, a-f, A-F are arithmetic). -/
def hexDigitVal (c : Char) : Option ℕ :=
  if 48 ≤ c.toNat ∧ c.toNat ≤ 57 then some (c.toNat - 48)
  else if 97 ≤ c.toNat ∧ c.toNat ≤ 102 then some (c.toNat - 87)
  else if 65 ≤ c.toNat ∧ c.toNat ≤ 70 then some (c.toNat - 55)
  else none

/-- Accumulator loop reading hexadecimal digits; none on a non-hex character. -/
def hexNatAux (acc : ℕ) : List Char → Option ℕ
  | [] => some acc
  | c :: rest =>
    match hexDigitVal c with
    | some d => hexNatAux (acc * 16 + d) rest
    | none => none

/-- Nonempty all-hex-digit character list to its numeric value. -/
def hexNatDigits : List Char → Option ℕ
  | [] => none
  | c :: rest => hexNatAux 0 (c :: rest)

/-- The whitespace predicate Python's int parsing strips with (the
Py_UNICODE_ISSPACE table: tab..carriage-return, the C1 separators 28-31,
space, next-line, no-break space, ogham space mark, the en-quad..hair-space
block, line/paragraph separator, narrow no-break space, medium mathematical
space, ideographic space). -/
def pyIsSpace (c : Char) : Bool :=
  (9 ≤ c.toNat ∧ c.toNat ≤ 13) ∨ (28 ≤ c.toNat ∧ c.toNat ≤ 31) ∨ c.toNat = 32 ∨
    c.toNat = 133 ∨ c.toNat = 160 ∨ c.toNat = 5760 ∨
    (8192 ≤ c.toNat ∧ c.toNat ≤ 8202) ∨ c.toNat = 8232 ∨ c.toNat = 8233 ∨
    c.toNat = 8239 ∨ c.toNat = 8287 ∨ c.toNat = 12288

/-- Strip leading and trailing whitespace, as int(s, 16) does before parsing. -/
def pyStripChars (l : List Char) : List Char :=
  ((l.dropWhile pyIsSpace).reverse.dropWhile pyIsSpace).reverse

/-- Sign-and-digits core of Python's int(s, 16) after whitespace stripping:
an optional single sign followed by one or more hex digits. -/
def pyIntHexCore (l : List Char) : Option ℤ :=
  match l with
  | [] => none
  | c :: rest =>
    if c = '+' then Option.map (fun n => (n : ℤ)) (hexNatDigits rest)
    else if c = '-' then Option.map (fun n => -(n : ℤ)) (hexNatDigits rest)
    else Option.map (fun n => (n : ℤ)) (hexNatDigits (c :: rest))

/-- Python's int(s, 16) on the strings hex_to_cmyk can pass it (slices of at
most two characters): surrounding whitespace is stripped, then an optional
single sign and one or more hex digits.  The remaining int literal forms -
the 0x/0X prefix with digits and underscore digit separators - need at least
three characters, so they never parse at these slice lengths ("0x", "_1",
"1_" all fail in source and model alike). -/
def pyIntHex (s : String) : Option ℤ :=
  pyIntHexCore (pyStripChars s.data)

/-- Python str.lstrip for the single character '#': drop every leading '#'. -/
def lstripHash (s : String) : String :=
  String.mk (s.data.dropWhile (fun c => c == '#'))

/-- Python slice s[a:b] for 0 ≤ a ≤ b (out-of-range ends are clamped). -/
def pySlice (s : String) (a b : ℕ) : String :=
  String.mk ((s.data.drop a).take (b - a))

/-- ColorWorkflowManager.hex_to_cmyk: strip leading '#', read the slices
[0:2], [2:4], [4:6] as hexadecimal integers, convert via rgb_to_cmyk; a
ValueError on any slice is caught, logged, and (0, 0, 0, 100) is returned. -/
def hex_to_cmyk (hex_color : String) : ℤ × ℤ × ℤ × ℤ :=
  let h := lstripHash hex_color
  match pyIntHex (pySlice h 0 2), pyIntHex (pySlice h 2 4), pyIntHex (pySlice h 4 6) with
  | some r, some g, some b => rgb_to_cmyk r g b
  | _, _, _ => (0, 0, 0, 100)

end ColorWorkflow

namespace GarmentColors

/-- Stored CMYK value of a catalog entry (garment_colors.py dicts c/m/y/k). -/
structure CMYK where
  c : ℤ
  m : ℤ
  y : ℤ
  k : ℤ
deriving DecidableEq, Repr

/-- One catalog entry (name/hex/cmyk keys of garment_colors.py; the
manufacturer/category metadata added by get_all_colors is bookkeeping only
and is not modelled). -/
structure ColorEntry where
  name : String
  hex : String
  cmyk : CMYK
deriving DecidableEq, Repr

/-- GARMENT_COLORS['gildan']['colors']. -/
def gildan_colors : List ColorEntry := [
  ⟨"Black", "#000000", ⟨0, 0, 0, 100⟩⟩,
  ⟨"White", "#FFFFFF", ⟨0, 0, 0, 0⟩⟩,
  ⟨"Ash", "#B8B8B8", ⟨0, 0, 0, 28⟩⟩,
  ⟨"Sport Grey", "#8C8C8C", ⟨0, 0, 0, 45⟩⟩,
  ⟨"Dark Heather", "#616161", ⟨0, 0, 0, 62⟩⟩,
  ⟨"Red", "#FF0000", ⟨0, 100, 100, 0⟩⟩,
  ⟨"Cardinal Red", "#B71234", ⟨0, 90, 71, 28⟩⟩,
  ⟨"Cherry Red", "#C5282F", ⟨0, 84, 76, 23⟩⟩,
  ⟨"Orange", "#FF8C00", ⟨0, 45, 100, 0⟩⟩,
  ⟨"Gold", "#FFD700", ⟨0, 16, 100, 0⟩⟩,
  ⟨"Yellow Haze", "#FFFF99", ⟨0, 0, 40, 0⟩⟩,
  ⟨"Daisy", "#FFFF00", ⟨0, 0, 100, 0⟩⟩,
  ⟨"Royal Blue", "#0047AB", ⟨100, 58, 0, 33⟩⟩,
  ⟨"Navy", "#000080", ⟨100, 100, 0, 50⟩⟩,
  ⟨"Irish Green", "#00FF00", ⟨100, 0, 100, 0⟩⟩,
  ⟨"Forest Green", "#228B22", ⟨76, 0, 76, 45⟩⟩,
  ⟨"Purple", "#800080", ⟨0, 100, 0, 50⟩⟩,
  ⟨"Heliconia", "#FF1493", ⟨0, 92, 42, 0⟩⟩,
  ⟨"Safety Pink", "#FF69B4", ⟨0, 59, 29, 0⟩⟩,
  ⟨"Safety Orange", "#FF4500", ⟨0, 73, 100, 0⟩⟩,
  ⟨"Safety Green", "#32CD32", ⟨75, 0, 75, 20⟩⟩,
  ⟨"Maroon", "#800000", ⟨0, 100, 100, 50⟩⟩,
  ⟨"Brown", "#A52A2A", ⟨0, 74, 74, 35⟩⟩,
  ⟨"Tan", "#D2B48C", ⟨0, 14, 33, 18⟩⟩,
  ⟨"Light Blue", "#ADD8E6", ⟨24, 6, 0, 10⟩⟩,
  ⟨"Light Pink", "#FFB6C1", ⟨0, 29, 24, 0⟩⟩,
  ⟨"Natural", "#F5F5DC", ⟨0, 0, 10, 4⟩⟩]

/-- GARMENT_COLORS['fruit_of_the_loom']['colors']. -/
def fruit_of_the_loom_colors : List ColorEntry := [
  ⟨"Black", "#000000", ⟨0, 0, 0, 100⟩⟩,
  ⟨"White", "#FFFFFF", ⟨0, 0, 0, 0⟩⟩,
  ⟨"Heather Grey", "#D3D3D3", ⟨0, 0, 0, 17⟩⟩,
  ⟨"Red", "#FF0000", ⟨0, 100, 100, 0⟩⟩,
  ⟨"Navy", "#000080", ⟨100, 100, 0, 50⟩⟩,
  ⟨"Royal Blue", "#4169E1", ⟨74, 58, 0, 12⟩⟩,
  ⟨"Kelly Green", "#4CBB17", ⟨70, 0, 87, 27⟩⟩,
  ⟨"Purple", "#800080", ⟨0, 100, 0, 50⟩⟩,
  ⟨"Orange", "#FFA500", ⟨0, 35, 100, 0⟩⟩,
  ⟨"Yellow", "#FFFF00", ⟨0, 0, 100, 0⟩⟩,
  ⟨"Sky Blue", "#87CEEB", ⟨43, 16, 0, 8⟩⟩,
  ⟨"Pink", "#FFC0CB", ⟨0, 25, 20, 0⟩⟩,
  ⟨"Lime Green", "#32CD32", ⟨75, 0, 75, 20⟩⟩,
  ⟨"Burgundy", "#800020", ⟨0, 100, 75, 50⟩⟩,
  ⟨"Forest Green", "#228B22", ⟨76, 0, 76, 45⟩⟩]

/-- SPECIALIZED_COLORS['hi_viz']. -/
def hi_viz_colors : List ColorEntry := [
  ⟨"Hi-Viz Orange", "#FF6600", ⟨0, 60, 100, 0⟩⟩,
  ⟨"Hi-Viz Yellow", "#FFFF00", ⟨0, 0, 100, 0⟩⟩,
  ⟨"Hi-Viz Green", "#00FF00", ⟨100, 0, 100, 0⟩⟩,
  ⟨"Hi-Viz Pink", "#FF1493", ⟨0, 92, 42, 0⟩⟩]

/-- SPECIALIZED_COLORS['pastels']. -/
def pastel_colors : List ColorEntry := [
  ⟨"Pastel Blue", "#B8E6FF", ⟨28, 10, 0, 0⟩⟩,
  ⟨"Pastel Pink", "#FFD1DC", ⟨0, 18, 14, 0⟩⟩,
  ⟨"Pastel Yellow", "#FFFF99", ⟨0, 0, 40, 0⟩⟩,
  ⟨"Pastel Green", "#90EE90", ⟨43, 0, 43, 7⟩⟩,
  ⟨"Pastel Purple", "#DDA0DD", ⟨13, 28, 0, 13⟩⟩]

/-- SPECIALIZED_COLORS['specialty_inks'] (the specialty tag is dropped). -/
def specialty_ink_colors : List ColorEntry := [
  ⟨"Metallic Gold", "#FFD700", ⟨0, 16, 100, 0⟩⟩,
  ⟨"Metallic Silver", "#C0C0C0", ⟨0, 0, 0, 25⟩⟩,
  ⟨"Glow in Dark", "#F0F8FF", ⟨6, 3, 0, 0⟩⟩,
  ⟨"Reflective", "#E5E5E5", ⟨0, 0, 0, 10⟩⟩]

/-- GarmentColorManager.get_all_colors: manufacturer colors in dict insertion
order (gildan then fruit_of_the_loom) followed by the specialized categories
(hi_viz, pastels, specialty_inks). -/
def get_all_colors : List ColorEntry :=
  gildan_colors ++ fruit_of_the_loom_colors ++
    hi_viz_colors ++ pastel_colors ++ specialty_ink_colors

/-- GarmentColorManager.get_cmyk_string. -/
def get_cmyk_string (color_info : ColorEntry) : String :=
  "C:" ++ toString color_info.cmyk.c ++ " M:" ++ toString color_info.cmyk.m ++
    " Y:" ++ toString color_info.cmyk.y ++ " K:" ++ toString color_info.cmyk.k

/-- Whether a converted CMYK tuple agrees with a stored catalog CMYK within
a tolerance of 1 on each of the four channels. -/
def withinOne (t : ℤ × ℤ × ℤ × ℤ) (s : CMYK) : Bool :=
  (t.1 - s.c).natAbs ≤ 1 && (t.2.1 - s.m).natAbs ≤ 1 &&
    (t.2.2.1 - s.y).natAbs ≤ 1 && (t.2.2.2 - s.k).natAbs ≤ 1

end GarmentColors


namespace PdfGen

/-- template_size dict: width/height in millimetres. -/
structure Template where
  width : ℚ
  height : ℚ
deriving DecidableEq, Repr

/-- One canvas-element dict as consumed by pdf_generator.py.  Optional dict
keys whose absence matters to the generator are Option fields: the
generator's _calculate_scale reads the key 'scale' (absent from the dicts
produced by get_canvas_data, defaulting to 1.0) and element.get('garmentColor',
default) falls back to the project default only when the key is absent.
The five imposition fields are carried by the data model and serialized by
get_canvas_data, so they are present here; the generator never reads them. -/
structure Element where
  logoId : ℕ
  x : ℚ
  y : ℚ
  width : ℚ
  height : ℚ
  rotation : ℚ
  scale : Option ℚ
  garmentColor : Option String
  isImposition : Bool
  impositionRows : ℤ
  impositionCols : ℤ
  impositionSpacingX : ℚ
  impositionSpacingY : ℚ
deriving DecidableEq, Repr

/-- One logo dict as consumed by pdf_generator.py (id/filename/isCMYKPreserved). -/
structure Logo where
  id : ℕ
  filename : String
  isCMYKPreserved : Bool
deriving DecidableEq, Repr

/-- project_data dict as consumed by OdooPDFGenerator.generate_pdf.
garment_color is Option because the code reads it with
project_data.get('garment_color', '#000000'). -/
structure ProjectData where
  template_size : Template
  canvas_elements : List Element
  logos : List Logo
  garment_color : Option String
deriving DecidableEq, Repr

/-- OdooPDFGenerator._calculate_scale: element.get('scale', 1.0). -/
def calculate_scale (element : Element) : ℚ :=
  element.scale.getD 1

/-- OdooPDFGenerator._calculate_position: convert canvas millimetres to page
points at 2.834 pt/mm and flip the Y axis against the page height. -/
def calculate_position (element : Element) (template : Template) : ℚ × ℚ :=
  let x := element.x * 2.834
  let y := element.y * 2.834
  let page_height := template.height * 2.834
  (x, page_height - y - element.height * 2.834)

/-- Extension extraction of _embed_single_logo:
logo.get('filename', '').lower().split('.')[-1]. -/
def file_ext (filename : String) : String :=
  (filename.toLower.splitOn ".").getLastD ""

/-- OdooPDFGenerator._get_logo_file_path. -/
def logo_file_path (logo : Logo) : String :=
  "/tmp/artwork_logos/" ++ logo.filename

/-- Which embedding branch of _embed_single_logo drew the element. -/
inductive EmbedKind where
  | pdfDirect
  | svgConverted
  | raster
deriving DecidableEq, Repr

/-- Per-element outcome of the embedding loop of _embed_logos_page: the
element was drawn, or its logo id did not resolve (the loop's continue), or
the logo file was absent (warning logged, element skipped). -/
inductive EmbedOutcome where
  | embedded (kind : EmbedKind)
  | logoNotFound
  | fileMissing
deriving DecidableEq, Repr

/-- OdooPDFGenerator._embed_single_logo against a file system modelled as the
list of existing paths.  A missing file logs a warning and returns without
drawing; otherwise the branch is chosen on the filename extension and the
isCMYKPreserved flag.  (The drawing calls themselves wrap their bodies in
try/except and at worst log a warning, so no branch escapes the element.) -/
def embed_single_logo (fs : List String) (_element : Element) (logo : Logo) : EmbedOutcome :=
  if logo_file_path logo ∈ fs then
    if file_ext logo.filename = "pdf" && logo.isCMYKPreserved then
      EmbedOutcome.embedded EmbedKind.pdfDirect
    else if file_ext logo.filename = "svg" then
      EmbedOutcome.embedded EmbedKind.svgConverted
    else
      EmbedOutcome.embedded EmbedKind.raster
  else
    EmbedOutcome.fileMissing

/-- OdooPDFGenerator._embed_logos_page: resolve each element's logo by id
(next(...) over the logos list) and embed it; every exception from
_embed_single_logo is caught and logged per element, so the loop always
finishes and yields an outcome for every element in order. -/
def embed_logos_page (fs : List String) (p : ProjectData) : List (Element × EmbedOutcome) :=
  p.canvas_elements.map fun element =>
    match p.logos.find? (fun l => l.id = element.logoId) with
    | none => (element, EmbedOutcome.logoNotFound)
    | some logo => (element, embed_single_logo fs element logo)

/-- Reportlab HexColor acceptance, for the color strings this app passes:
'#' followed by six hexadecimal digits.  Anything else raises inside
_draw_garment_backgrounds' try and the rectangle is skipped with a warning. -/
def isValidHexColor (s : String) : Bool :=
  match s.data with
  | '#' :: rest => rest.length = 6 && rest.all (fun c => (ColorWorkflow.hexDigitVal c).isSome)
  | _ => false

/-- OdooPDFGenerator._draw_garment_backgrounds: one filled rectangle per
canvas element (no imposition expansion) in the element's garment color,
falling back to the project garment color, at the element's page-space
bounds; empty, 'transparent' and unparsable colors draw nothing. -/
def draw_garment_backgrounds (p : ProjectData) : List (String × (ℚ × ℚ × ℚ × ℚ)) :=
  let default_color := p.garment_color.getD "#000000"
  p.canvas_elements.filterMap fun element =>
    let garment_color := element.garmentColor.getD default_color
    let scale := calculate_scale element
    let pos := calculate_position element p.template_size
    let width := element.width * scale
    let height := element.height * scale
    if garment_color ≠ "" ∧ garment_color ≠ "transparent" then
      if isValidHexColor garment_color then
        some (garment_color, (pos.1, pos.2, width, height))
      else
        none
    else
      none

/-- First-occurrence deduplication used to model the Python set collecting
garment colors in _add_color_labels.  CPython set iteration order is
unspecified (hash based); the model keeps first-appearance order, and no
claim settled here depends on the order of two or more distinct colors. -/
def dedupFirstAux (seen : List String) : List String → List String
  | [] => []
  | x :: xs =>
    if x ∈ seen then dedupFirstAux seen xs
    else x :: dedupFirstAux (x :: seen) xs

/-- First-occurrence deduplication of a list of color strings. -/
def dedupFirst (l : List String) : List String :=
  dedupFirstAux [] l

/-- Python str.upper, character by character (the color strings here are
ASCII; modelled as a map over the character list). -/
def pyUpper (s : String) : String :=
  String.mk (s.data.map Char.toUpper)

/-- OdooPDFGenerator._get_color_info: a placeholder that uppercases the hex
value and returns an empty CMYK string (the source comments that it would
need the garment color database). -/
def get_color_info (hex_color : String) : String × String :=
  (pyUpper hex_color, "")

/-- OdooPDFGenerator._add_color_labels: collect each element's garment color
(element value, else project default) into a set, then draw one text line
per distinct non-empty, non-'transparent' color, formatted as the color
info name followed by a space and the color info cmyk string. -/
def add_color_labels (p : ProjectData) : List String :=
  let default_color := p.garment_color.getD "#000000"
  let colors := dedupFirst (p.canvas_elements.filterMap fun element =>
    let garment_color := element.garmentColor.getD default_color
    if garment_color ≠ "" then some garment_color else none)
  colors.filterMap fun color =>
    if color ≠ "" ∧ color ≠ "transparent" then
      let info := get_color_info color
      some (info.1 ++ " " ++ info.2)
    else
      none

/-- The generated two-page document: page 1 carries only the embedding
outcomes; page 2 carries the garment background rectangles, the same
embedding pass again, and the color label lines. -/
structure Document where
  page1 : List (Element × EmbedOutcome)
  page2_backgrounds : List (String × (ℚ × ℚ × ℚ × ℚ))
  page2_embeds : List (Element × EmbedOutcome)
  page2_labels : List String
deriving DecidableEq, Repr

/-- OdooPDFGenerator.generate_pdf: page 1 embeds the logos on a transparent
background, page 2 draws the garment backgrounds, embeds the logos again and
adds the color labels.  Per-element failures are contained inside the three
passes, so the function is total: every project yields a document. -/
def generate_pdf (fs : List String) (p : ProjectData) : Document :=
  { page1 := embed_logos_page fs p
    page2_backgrounds := draw_garment_backgrounds p
    page2_embeds := embed_logos_page fs p
    page2_labels := add_color_labels p }

end PdfGen

namespace CanvasElementModel

/-- The writable fields of an artwork.canvas.element record (model
artwork_canvas_element.py).  The database id is assigned by the ORM and is
not part of the round-trip claim; project_id is passed separately to
create_from_canvas_data.  Odoo Char fields read as falsy when unset, which
the model folds into the empty string. -/
structure CanvasElementRecord where
  project_id : ℕ
  logo_id : ℕ
  sequence : ℤ
  x : ℚ
  y : ℚ
  width : ℚ
  height : ℚ
  rotation : ℚ
  scale_x : ℚ
  scale_y : ℚ
  opacity : ℚ
  garment_color : String
  garment_color_name : String
  is_imposition : Bool
  imposition_rows : ℤ
  imposition_cols : ℤ
  imposition_spacing_x : ℚ
  imposition_spacing_y : ℚ
  is_locked : Bool
  lock_position : Bool
  lock_size : Bool
  lock_rotation : Bool
deriving DecidableEq, Repr

/-- The dict produced by ArtworkCanvasElement.get_canvas_data, minus the
record's database id (serialized as well, but ignored by
create_from_canvas_data). -/
structure CanvasData where
  logoId : ℕ
  x : ℚ
  y : ℚ
  width : ℚ
  height : ℚ
  rotation : ℚ
  scaleX : ℚ
  scaleY : ℚ
  opacity : ℚ
  garmentColor : String
  isImposition : Bool
  impositionRows : ℤ
  impositionCols : ℤ
  impositionSpacingX : ℚ
  impositionSpacingY : ℚ
  isLocked : Bool
deriving DecidableEq, Repr

/-- ArtworkCanvasElement.get_canvas_data: garmentColor serializes
self.garment_color or 'default' (Python truthiness: an unset/empty Char
becomes the sentinel 'default'). -/
def get_canvas_data (e : CanvasElementRecord) : CanvasData :=
  { logoId := e.logo_id
    x := e.x
    y := e.y
    width := e.width
    height := e.height
    rotation := e.rotation
    scaleX := e.scale_x
    scaleY := e.scale_y
    opacity := e.opacity
    garmentColor := if e.garment_color = "" then "default" else e.garment_color
    isImposition := e.is_imposition
    impositionRows := e.imposition_rows
    impositionCols := e.imposition_cols
    impositionSpacingX := e.imposition_spacing_x
    impositionSpacingY := e.imposition_spacing_y
    isLocked := e.is_locked }

/-- ArtworkCanvasElement.create_from_canvas_data: builds the vals dict and
creates the record.  garment_color maps the sentinel 'default' back to unset
(False); sequence, garment_color_name and the three per-axis lock flags are
not present in the dict and take their model defaults (10, unset, False). -/
def create_from_canvas_data (project_id : ℕ) (d : CanvasData) : CanvasElementRecord :=
  { project_id := project_id
    logo_id := d.logoId
    sequence := 10
    x := d.x
    y := d.y
    width := d.width
    height := d.height
    rotation := d.rotation
    scale_x := d.scaleX
    scale_y := d.scaleY
    opacity := d.opacity
    garment_color := if d.garmentColor = "default" then "" else d.garmentColor
    garment_color_name := ""
    is_imposition := d.isImposition
    imposition_rows := d.impositionRows
    imposition_cols := d.impositionCols
    imposition_spacing_x := d.impositionSpacingX
    imposition_spacing_y := d.impositionSpacingY
    is_locked := d.isLocked
    lock_position := false
    lock_size := false
    lock_rotation := false }

end CanvasElementModel

namespace LogoModel

/-- file_type selection values of artwork.logo (artwork_logo.py). -/
inductive LogoFileType where
  | png
  | jpeg
  | svg
  | pdf
  | ai
  | eps
deriving DecidableEq, Repr

/-- The analysis flags of an artwork.logo record touched by file processing. -/
structure LogoRecord where
  file_type : LogoFileType
  is_vector : Bool
  is_raster : Bool
  has_cmyk : Bool
  has_rgb : Bool
  is_cmyk_preserved : Bool
deriving DecidableEq, Repr

/-- A freshly created artwork.logo record: every analysis boolean defaults to
False (the field declarations of artwork_logo.py); _process_file runs on such
a record right after create. -/
def new_logo_record (file_type : LogoFileType) : LogoRecord :=
  { file_type := file_type
    is_vector := false
    is_raster := false
    has_cmyk := false
    has_rgb := false
    is_cmyk_preserved := false }

/-- ArtworkLogo._process_pdf (the definition at lines 123-160 cited by the
claim; the file later repeats a stub of the same name).  ok selects the try
branch; the except branch applies the fallback assignments. -/
def process_pdf (ok : Bool) (r : LogoRecord) : LogoRecord :=
  if ok then
    { r with is_vector := true, is_raster := false,
             has_cmyk := true, is_cmyk_preserved := true }
  else
    { r with is_vector := true, has_cmyk := false, is_cmyk_preserved := false }

/-- ArtworkLogo._process_svg; has_cmyk_kw / has_rgb_kw are the keyword scans
of the SVG text, ok selects the try branch. -/
def process_svg (ok has_cmyk_kw has_rgb_kw : Bool) (r : LogoRecord) : LogoRecord :=
  if ok then
    { r with is_vector := true, is_raster := false,
             has_cmyk := has_cmyk_kw, has_rgb := has_rgb_kw,
             is_cmyk_preserved := has_cmyk_kw }
  else
    { r with is_vector := true, has_cmyk := false }

/-- ArtworkLogo._process_raster (lines 192-210); the except branch only sets
is_raster. -/
def process_raster (ok : Bool) (r : LogoRecord) : LogoRecord :=
  if ok then
    { r with is_vector := false, is_raster := true,
             has_rgb := true, has_cmyk := false, is_cmyk_preserved := false }
  else
    { r with is_raster := true }

/-- ArtworkLogo._convert_to_svg (the ai/eps path): marks the record vector. -/
def convert_to_svg (r : LogoRecord) : LogoRecord :=
  { r with is_vector := true }

/-- ArtworkLogo._process_file: dispatch on file_type.  The subsequent
_analyze_colors call touches only color_count/color_data, none of the flags
modelled here. -/
def process_file (pdf_ok svg_ok raster_ok has_cmyk_kw has_rgb_kw : Bool)
    (r : LogoRecord) : LogoRecord :=
  match r.file_type with
  | LogoFileType.ai => convert_to_svg r
  | LogoFileType.eps => convert_to_svg r
  | LogoFileType.pdf => process_pdf pdf_ok r
  | LogoFileType.svg => process_svg svg_ok has_cmyk_kw has_rgb_kw r
  | LogoFileType.png => process_raster raster_ok r
  | LogoFileType.jpeg => process_raster raster_ok r

end LogoModel

/-! Concrete test fixtures used by the closed theorems below. -/

namespace Fixtures

/-- Logo referenced by the imposition element. -/
def impo_logo : PdfGen.Logo := ⟨1, "logo.png", false⟩

/-- A canvas element carrying a 2x3 imposition grid with spacing (5, 5). -/
def impo_element : PdfGen.Element :=
  { logoId := 1, x := 10, y := 20, width := 50, height := 40, rotation := 0,
    scale := none, garmentColor := none, isImposition := true,
    impositionRows := 2, impositionCols := 3,
    impositionSpacingX := 5, impositionSpacingY := 5 }

/-- A project whose single element requests 2x3 imposition. -/
def impo_project : PdfGen.ProjectData :=
  { template_size := ⟨297, 420⟩,
    canvas_elements := [impo_element],
    logos := [impo_logo],
    garment_color := some "#FF0000" }

/-- File system containing the imposition element's logo file. -/
def impo_fs : List String := ["/tmp/artwork_logos/logo.png"]

/-- First element of the red-garment project (uses the project default color). -/
def red_element1 : PdfGen.Element :=
  { logoId := 1, x := 0, y := 0, width := 50, height := 40, rotation := 0,
    scale := none, garmentColor := none, isImposition := false,
    impositionRows := 1, impositionCols := 1,
    impositionSpacingX := 10, impositionSpacingY := 10 }

/-- Second element of the red-garment project, same garment color. -/
def red_element2 : PdfGen.Element :=
  { red_element1 with x := 100 }

/-- A project with one raster PNG logo, two elements, garment color #FF0000
named Red (matching the end-to-end scenario of the claim). -/
def red_project : PdfGen.ProjectData :=
  { template_size := ⟨297, 420⟩,
    canvas_elements := [red_element1, red_element2],
    logos := [⟨1, "logo.png", false⟩],
    garment_color := some "#FF0000" }

/-- The Gildan catalog entry for #FF0000. -/
def red_entry : GarmentColors.ColorEntry := ⟨"Red", "#FF0000", ⟨0, 100, 100, 0⟩⟩

/-- Logo whose file is absent from the file system. -/
def c3_logoA : PdfGen.Logo := ⟨1, "missing.png", false⟩

/-- Logo whose file is present. -/
def c3_logoB : PdfGen.Logo := ⟨2, "present.pdf", true⟩

/-- Element referencing the missing logo. -/
def c3_elemA : PdfGen.Element :=
  { logoId := 1, x := 0, y := 0, width := 50, height := 40, rotation := 0,
    scale := none, garmentColor := none, isImposition := false,
    impositionRows := 1, impositionCols := 1,
    impositionSpacingX := 10, impositionSpacingY := 10 }

/-- Element referencing the present logo. -/
def c3_elemB : PdfGen.Element :=
  { c3_elemA with logoId := 2, x := 120 }

/-- Project mixing one failing and one succeeding element. -/
def c3_project : PdfGen.ProjectData :=
  { template_size := ⟨297, 420⟩,
    canvas_elements := [c3_elemA, c3_elemB],
    logos := [c3_logoA, c3_logoB],
    garment_color := some "#FF0000" }

/-- File system for the mixed project: only logo B's file exists. -/
def c3_fs : List String := ["/tmp/artwork_logos/present.pdf"]

/-- A fully populated canvas element record with a plain garment color. -/
def c10_element : CanvasElementModel.CanvasElementRecord :=
  { project_id := 7, logo_id := 3, sequence := 42,
    x := 1, y := 2, width := 30, height := 40, rotation := 90,
    scale_x := 2, scale_y := 3, opacity := 1 / 2,
    garment_color := "#FF0000", garment_color_name := "Red",
    is_imposition := true, imposition_rows := 2, imposition_cols := 3,
    imposition_spacing_x := 5, imposition_spacing_y := 6,
    is_locked := true, lock_position := true, lock_size := true,
    lock_rotation := true }

/-- The same record but with the literal string 'default' stored as its
garment color, colliding with the serialization sentinel. -/
def c10_sentinel : CanvasElementModel.CanvasElementRecord :=
  { c10_element with garment_color := "default" }

/-- The six catalog hex values whose stored CMYK is more than 1 away from the
value recomputed by hex_to_cmyk (Cherry Red, Fruit of the Loom Royal Blue,
Kelly Green, Sky Blue, Pastel Green, Pastel Purple). -/
def round_trip_failures : List String :=
  ["#C5282F", "#4169E1", "#4CBB17", "#87CEEB", "#90EE90", "#DDA0DD"]

end Fixtures

/-! Claim theorems. -/

/-- Claim C4: the canvas-to-page transform converts millimetres to points at
1mm = 2.834pt, maps x to canvas_x*2.834 and flips the Y axis as
page_y = page_height_pt - canvas_y_pt - element_height_pt; in particular an
element at canvas (0,0) with height h on a template of height H maps to
page-space y = H*2.834 - h*2.834. -/
theorem claim_C4 :
    (∀ (el : PdfGen.Element) (t : PdfGen.Template),
      PdfGen.calculate_position el t =
        (el.x * 2.834, t.height * 2.834 - el.y * 2.834 - el.height * 2.834))
  ∧ (∀ (w h W H : ℚ),
      (PdfGen.calculate_position
          { logoId := 0, x := 0, y := 0, width := w, height := h, rotation := 0,
            scale := none, garmentColor := none, isImposition := false,
            impositionRows := 1, impositionCols := 1,
            impositionSpacingX := 10, impositionSpacingY := 10 }
          { width := W, height := H }).2 = H * 2.834 - h * 2.834) := by
  constructor
  · intro el t
    rfl
  · intro w h W H
    show H * 2.834 - 0 * 2.834 - h * 2.834 = H * 2.834 - h * 2.834
    ring

/-- Claim C5: should_preserve_cmyk is true iff the file type is vector and
has_cmyk_colors is true; in particular raster file types always give false. -/
theorem claim_C5 :
    ∀ (ft : ColorWorkflow.FileType) (has_cmyk : Bool),
      (ColorWorkflow.should_preserve_cmyk ft has_cmyk = true ↔
        ColorWorkflow.is_vector_file ft = true ∧ has_cmyk = true)
    ∧ (ColorWorkflow.is_raster_file ft = true →
        ColorWorkflow.should_preserve_cmyk ft has_cmyk = false) := by
  intro ft has_cmyk
  cases ft <;> cases has_cmyk <;> exact ⟨by decide, by decide⟩

/-- Witness for C5 at a concrete raster input. -/
theorem claim_C5_witness :
    ColorWorkflow.is_raster_file ColorWorkflow.FileType.rasterPng = true ∧
    ColorWorkflow.should_preserve_cmyk ColorWorkflow.FileType.rasterPng true = false :=
  ⟨rfl, (claim_C5 ColorWorkflow.FileType.rasterPng true).2 rfl⟩

/-- Claim C6: vector file types get allow_raster_conversion = false,
convert_to_cmyk = the negation of has_cmyk_colors and preserve_cmyk by the
should_preserve_cmyk rule; every other file type gets preserve_cmyk = false,
convert_to_cmyk = true, allow_raster_conversion = true. -/
theorem claim_C6 :
    ∀ (ft : ColorWorkflow.FileType) (has_cmyk : Bool),
      (ColorWorkflow.is_vector_file ft = true →
        ColorWorkflow.get_workflow_options ft has_cmyk =
          { preserve_cmyk := ColorWorkflow.should_preserve_cmyk ft has_cmyk
            convert_to_cmyk := !has_cmyk
            allow_raster_conversion := false })
    ∧ (ColorWorkflow.is_vector_file ft = false →
        ColorWorkflow.get_workflow_options ft has_cmyk =
          { preserve_cmyk := false
            convert_to_cmyk := true
            allow_raster_conversion := true }) := by
  intro ft has_cmyk
  cases ft <;> cases has_cmyk <;> exact ⟨by decide, by decide⟩

/-- Witness for C6 at a vector input and a raster input. -/
theorem claim_C6_witness :
    ColorWorkflow.get_workflow_options ColorWorkflow.FileType.vectorSvg false =
      { preserve_cmyk := ColorWorkflow.should_preserve_cmyk ColorWorkflow.FileType.vectorSvg false
        convert_to_cmyk := !false
        allow_raster_conversion := false } ∧
    ColorWorkflow.get_workflow_options ColorWorkflow.FileType.rasterPng true =
      { preserve_cmyk := false, convert_to_cmyk := true, allow_raster_conversion := true } :=
  ⟨(claim_C6 ColorWorkflow.FileType.vectorSvg false).1 rfl,
   (claim_C6 ColorWorkflow.FileType.rasterPng true).2 rfl⟩

/-- Claim C9: after file processing of a freshly created logo record,
is_vector and is_raster are never both true, and a record processed through
the raster path (png/jpeg) never has is_cmyk_preserved = true.  The boolean
parameters range over the try/except branches and the SVG keyword scans. -/
theorem claim_C9 :
    ∀ (ft : LogoModel.LogoFileType) (pdf_ok svg_ok raster_ok cmyk_kw rgb_kw : Bool),
      ¬((LogoModel.process_file pdf_ok svg_ok raster_ok cmyk_kw rgb_kw
            (LogoModel.new_logo_record ft)).is_vector = true ∧
        (LogoModel.process_file pdf_ok svg_ok raster_ok cmyk_kw rgb_kw
            (LogoModel.new_logo_record ft)).is_raster = true)
    ∧ ((ft = LogoModel.LogoFileType.png ∨ ft = LogoModel.LogoFileType.jpeg) →
        (LogoModel.process_file pdf_ok svg_ok raster_ok cmyk_kw rgb_kw
            (LogoModel.new_logo_record ft)).is_cmyk_preserved = false) := by
  intro ft a b c d e
  cases ft <;> cases a <;> cases b <;> cases c <;> cases d <;> cases e <;>
    exact ⟨by decide, by decide⟩

/-- Witness for C9 at a png record with all try branches succeeding. -/
theorem claim_C9_witness :
    (LogoModel.process_file true true true true true
        (LogoModel.new_logo_record LogoModel.LogoFileType.png)).is_cmyk_preserved = false ∧
    ¬((LogoModel.process_file true true true true true
          (LogoModel.new_logo_record LogoModel.LogoFileType.png)).is_vector = true ∧
      (LogoModel.process_file true true true true true
          (LogoModel.new_logo_record LogoModel.LogoFileType.png)).is_raster = true) :=
  ⟨(claim_C9 LogoModel.LogoFileType.png true true true true true).2 (Or.inl rfl),
   (claim_C9 LogoModel.LogoFileType.png true true true true true).1⟩

/-- Claim C10 (amended): for every canvas element record whose garment_color
is not the literal sentinel string 'default', serializing with
get_canvas_data and re-creating with create_from_canvas_data reproduces the
logo reference, geometry, transform, opacity, the five imposition fields,
is_locked and garment_color (an unset garment_color goes through the
sentinel 'default' and back to unset), while sequence, garment_color_name
and the per-axis lock flags revert to their defaults. -/
theorem claim_C10_amended :
    ∀ (e : CanvasElementModel.CanvasElementRecord),
      e.garment_color ≠ "default" →
      CanvasElementModel.create_from_canvas_data e.project_id
          (CanvasElementModel.get_canvas_data e) =
        { e with sequence := 10, garment_color_name := "",
                 lock_position := false, lock_size := false,
                 lock_rotation := false } := by
  intro e h
  obtain ⟨pid, lid, seq, x, y, w, ht, rot, sx, sy, op, gc, gcn,
          imp, ir, ic, isx, isy, lk, lp, ls, lr⟩ := e
  by_cases hgc : gc = ""
  · simp [CanvasElementModel.get_canvas_data,
          CanvasElementModel.create_from_canvas_data, hgc]
  · simp [CanvasElementModel.get_canvas_data,
          CanvasElementModel.create_from_canvas_data, hgc, h]

/-- Witness for C10 at a fully populated concrete record. -/
theorem claim_C10_amended_witness :
    CanvasElementModel.create_from_canvas_data Fixtures.c10_element.project_id
        (CanvasElementModel.get_canvas_data Fixtures.c10_element) =
      { Fixtures.c10_element with sequence := 10, garment_color_name := "",
                                  lock_position := false, lock_size := false,
                                  lock_rotation := false } :=
  claim_C10_amended Fixtures.c10_element (by decide)

/-- Counterexample for C10 as stated: an element whose garment_color is the
literal string 'default' is serialized to the sentinel and mapped back to
unset, so its garment_color is not reproduced by the round trip. -/
theorem claim_C10_counterexample :
    Fixtures.c10_sentinel.garment_color = "default" ∧
    (CanvasElementModel.get_canvas_data Fixtures.c10_sentinel).garmentColor = "default" ∧
    (CanvasElementModel.create_from_canvas_data Fixtures.c10_sentinel.project_id
        (CanvasElementModel.get_canvas_data Fixtures.c10_sentinel)).garment_color = "" ∧
    (CanvasElementModel.create_from_canvas_data Fixtures.c10_sentinel.project_id
        (CanvasElementModel.get_canvas_data Fixtures.c10_sentinel)).garment_color ≠
      Fixtures.c10_sentinel.garment_color := by
  refine ⟨rfl, rfl, rfl, ?_⟩
  decide

/-- Counterexample for C7 as stated: the Fruit of the Loom Royal Blue entry
stores CMYK (74, 58, 0, 12) but hex_to_cmyk of its hex #4169E1 yields
(71, 53, 0, 12), off by 3 and 5 on the c and m channels. -/
theorem claim_C7_counterexample :
    (⟨"Royal Blue", "#4169E1", ⟨74, 58, 0, 12⟩⟩ : GarmentColors.ColorEntry) ∈
      GarmentColors.get_all_colors ∧
    ColorWorkflow.hex_to_cmyk "#4169E1" = (71, 53, 0, 12) ∧
    GarmentColors.withinOne (ColorWorkflow.hex_to_cmyk "#4169E1") ⟨74, 58, 0, 12⟩ = false := by
  refine ⟨by decide, by decide, by decide⟩

/-- Claim C7 (amended): every garment color catalog entry except the six
listed in round_trip_failures (Cherry Red, Fruit of the Loom Royal Blue,
Kelly Green, Sky Blue, Pastel Green, Pastel Purple) reproduces its stored
CMYK value through hex_to_cmyk within 1 on each channel. -/
theorem claim_C7_amended :
    ∀ e ∈ GarmentColors.get_all_colors,
      e.hex ∉ Fixtures.round_trip_failures →
      GarmentColors.withinOne (ColorWorkflow.hex_to_cmyk e.hex) e.cmyk = true := by
  decide

/-- Witness for C7 (amended) at the Gildan Red entry. -/
theorem claim_C7_amended_witness :
    GarmentColors.withinOne (ColorWorkflow.hex_to_cmyk "#FF0000") ⟨0, 100, 100, 0⟩ = true :=
  claim_C7_amended ⟨"Red", "#FF0000", ⟨0, 100, 100, 0⟩⟩ (by decide) (by decide)

/-- Claim C1 evaluated at the failing input: the generator draws exactly one
background rectangle and one page-1 embed for a canvas element that carries
a 2x3 imposition grid, instead of the rows*cols = 6 cells the claim states
(no code path of pdf_generator.py reads the imposition fields). -/
theorem claim_C1_divergence :
    Fixtures.impo_element.isImposition = true ∧
    Fixtures.impo_element.impositionRows = 2 ∧
    Fixtures.impo_element.impositionCols = 3 ∧
    Fixtures.impo_project.canvas_elements = [Fixtures.impo_element] ∧
    (PdfGen.generate_pdf Fixtures.impo_fs Fixtures.impo_project).page1.length = 1 ∧
    (PdfGen.generate_pdf Fixtures.impo_fs Fixtures.impo_project).page2_backgrounds.length = 1 ∧
    (1 : ℕ) ≠ 2 * 3 := by
  refine ⟨rfl, rfl, rfl, rfl, rfl, rfl, by decide⟩

/-- Claim C2 evaluated at the failing input: for a project with garment
color #FF0000 named Red and two elements using it, the page-2 legend is the
single line "#FF0000 " (the uppercased hex followed by a space and the empty
CMYK string of the placeholder _get_color_info), not the claimed
"Red C:0 M:100 Y:100 K:0" - even though the repository's own
GarmentColorManager holds the Red entry and formats exactly that label. -/
theorem claim_C2_divergence :
    Fixtures.red_project.garment_color = some "#FF0000" ∧
    (PdfGen.generate_pdf [] Fixtures.red_project).page2_labels = ["#FF0000 "] ∧
    "Red C:0 M:100 Y:100 K:0" ∉ (PdfGen.generate_pdf [] Fixtures.red_project).page2_labels ∧
    Fixtures.red_entry ∈ GarmentColors.get_all_colors ∧
    Fixtures.red_entry.name = "Red" ∧
    Fixtures.red_entry.hex = "#FF0000" ∧
    GarmentColors.get_cmyk_string Fixtures.red_entry = "C:0 M:100 Y:100 K:0" := by
  refine ⟨rfl, by decide, by decide, by decide, rfl, rfl, by decide⟩

/-- Helper for C3: when the logo file exists, _embed_single_logo always
draws the element through one of the three embedding branches. -/
theorem embed_single_logo_total (fs : List String) (el : PdfGen.Element)
    (lg : PdfGen.Logo) (h : PdfGen.logo_file_path lg ∈ fs) :
    ∃ k, PdfGen.embed_single_logo fs el lg = PdfGen.EmbedOutcome.embedded k := by
  unfold PdfGen.embed_single_logo
  rw [if_pos h]
  split_ifs <;> exact ⟨_, rfl⟩

/-- Claim C3: a single element whose logo file is missing is warned about and
omitted (outcome fileMissing), while every element whose logo file is present
is still embedded, on page 1 and page 2 alike; generate_pdf is a total
function of the project data, so the document is always produced. -/
theorem claim_C3 :
    ∀ (fs : List String) (p : PdfGen.ProjectData),
      (∀ el lg, el ∈ p.canvas_elements →
        p.logos.find? (fun l => l.id = el.logoId) = some lg →
        PdfGen.logo_file_path lg ∉ fs →
        (el, PdfGen.EmbedOutcome.fileMissing) ∈ (PdfGen.generate_pdf fs p).page1)
    ∧ (∀ el lg, el ∈ p.canvas_elements →
        p.logos.find? (fun l => l.id = el.logoId) = some lg →
        PdfGen.logo_file_path lg ∈ fs →
        ∃ k, (el, PdfGen.EmbedOutcome.embedded k) ∈ (PdfGen.generate_pdf fs p).page1 ∧
             (el, PdfGen.EmbedOutcome.embedded k) ∈ (PdfGen.generate_pdf fs p).page2_embeds) := by
  intro fs p
  constructor
  · intro el lg hel hfind hmiss
    show (el, PdfGen.EmbedOutcome.fileMissing) ∈ PdfGen.embed_logos_page fs p
    refine List.mem_map.mpr ⟨el, hel, ?_⟩
    rw [hfind]
    show (el, PdfGen.embed_single_logo fs el lg) = (el, PdfGen.EmbedOutcome.fileMissing)
    unfold PdfGen.embed_single_logo
    rw [if_neg hmiss]
  · intro el lg hel hfind hmem
    obtain ⟨k, hk⟩ := embed_single_logo_total fs el lg hmem
    refine ⟨k, ?_, ?_⟩ <;>
    · show (el, PdfGen.EmbedOutcome.embedded k) ∈ PdfGen.embed_logos_page fs p
      refine List.mem_map.mpr ⟨el, hel, ?_⟩
      rw [hfind]
      show (el, PdfGen.embed_single_logo fs el lg) = (el, PdfGen.EmbedOutcome.embedded k)
      rw [hk]

/-- Witness for C3 on the concrete mixed project: the missing-file element is
reported fileMissing, the present-file element is embedded on both pages. -/
theorem claim_C3_witness :
    (Fixtures.c3_elemA, PdfGen.EmbedOutcome.fileMissing) ∈
      (PdfGen.generate_pdf Fixtures.c3_fs Fixtures.c3_project).page1 ∧
    ∃ k, (Fixtures.c3_elemB, PdfGen.EmbedOutcome.embedded k) ∈
           (PdfGen.generate_pdf Fixtures.c3_fs Fixtures.c3_project).page1 ∧
         (Fixtures.c3_elemB, PdfGen.EmbedOutcome.embedded k) ∈
           (PdfGen.generate_pdf Fixtures.c3_fs Fixtures.c3_project).page2_embeds :=
  ⟨(claim_C3 Fixtures.c3_fs Fixtures.c3_project).1 Fixtures.c3_elemA Fixtures.c3_logoA
      (by decide) (by decide) (by decide),
   (claim_C3 Fixtures.c3_fs Fixtures.c3_project).2 Fixtures.c3_elemB Fixtures.c3_logoB
      (by decide) (by decide) (by decide)⟩

